import Mathlib

/-!
Shallow embedding of the tag-classifier core:
 - `classify_tags.py` (the Classification Engine): `TagClassifier.classify_tags`
   and `TagClassifier.classify_single_tag`.
 - `server.py` (the HTTP Service Layer): the `/classify` route and the
   health-check route.

The underlying zero-shot model (a Hugging Face pipeline) is an external
black box: it is embedded as a function from the premise text, the candidate
labels and the multi-label flag to either a raised error message or a ranked
output (labels paired with scores).  Scores are floats in the source; they
are embedded as rationals, since no claim depends on float rounding.
Python exceptions are embedded as `Except` errors; the Python `dict` built
by the engine (insertion-ordered, last duplicate value wins) is embedded as
an association list built by `pyDict`.
-/

/-- Raw output of one call to the zero-shot-classification pipeline:
`result["labels"]` and `result["scores"]`, ranked by the model. -/
structure ModelOutput where
  labels : List String
  scores : List ℚ
  deriving DecidableEq

/-- The black-box model: premise text, candidate labels, multi-label flag
to either a raised message (the call raising) or a ranked output. -/
abbrev Model := String → List String → Bool → Except String ModelOutput

/-- The dictionary returned by `TagClassifier.classify_tags`:
keys `category`, `score` and the optional `all_scores`. -/
structure ClassifyOutput where
  category : String
  score : ℚ
  all_scores : Option (List (String × ℚ))
  deriving DecidableEq

/-- An exception escaping the engine: either the model call raised
(`inferenceError` with the original message) or `result["labels"][0]` /
`result["scores"][0]` was taken on an empty list (Python `IndexError`). -/
inductive EngineError where
  | inferenceError (m : String)
  | indexError
  deriving DecidableEq

/-- `str(e)` of the escaping exception. -/
def EngineError.msg : EngineError → String
  | .inferenceError s => s
  | .indexError => "list index out of range"

instance instDecEqExcept {ε α : Type} [DecidableEq ε] [DecidableEq α] :
    DecidableEq (Except ε α) := fun a b =>
  match a, b with
  | .error e, .error f =>
      if h : e = f then .isTrue (congrArg Except.error h)
      else .isFalse fun c => h (Except.error.inj c)
  | .ok x, .ok y =>
      if h : x = y then .isTrue (congrArg Except.ok h)
      else .isFalse fun c => h (Except.ok.inj c)
  | .error _, .ok _ => .isFalse fun c => Except.noConfusion c
  | .ok _, .error _ => .isFalse fun c => Except.noConfusion c

/-- One Python `dict` update `d[k] = v`: replace the value at the first
occurrence of `k`, or append `(k, v)` when `k` is absent. -/
def dictUpd : List (String × ℚ) → String → ℚ → List (String × ℚ)
  | [], k, v => [(k, v)]
  | (k', v') :: rest, k, v =>
    if k' = k then (k', v) :: rest else (k', v') :: dictUpd rest k v

/-- The Python dict comprehension over a list of pairs: insertion-ordered,
a repeated key keeps its first position and its last value. -/
def pyDict (l : List (String × ℚ)) : List (String × ℚ) :=
  l.foldl (fun d p => dictUpd d p.1 p.2) []

/-- `TagClassifier.classify_tags` (classify_tags.py, lines 43-87):
join the tags with ", ", call the pipeline once, and assemble
`{category, score}` plus the `all_scores` dict when `return_scores`. -/
def classify_tags (m : Model) (tags categories : List String)
    (multi_label return_scores : Bool) : Except EngineError ClassifyOutput :=
  let text := String.intercalate ", " tags
  match m text categories multi_label with
  | .error e => .error (.inferenceError e)
  | .ok result =>
    match result.labels, result.scores with
    | l0 :: _, s0 :: _ =>
      .ok ⟨l0, s0,
        if return_scores then some (pyDict (result.labels.zip result.scores))
        else none⟩
    | _, _ => .error .indexError

/-- The result-assembly step of `classify_tags` on the model's outcome,
named so the premise handed to the model is visible in theorems. -/
def assembleResult (return_scores : Bool) :
    Except String ModelOutput → Except EngineError ClassifyOutput
  | .error e => .error (.inferenceError e)
  | .ok result =>
    match result.labels, result.scores with
    | l0 :: _, s0 :: _ =>
      .ok ⟨l0, s0,
        if return_scores then some (pyDict (result.labels.zip result.scores))
        else none⟩
    | _, _ => .error .indexError

/-- `TagClassifier.classify_single_tag` (classify_tags.py, lines 89-106):
wraps the tag in a singleton list and delegates; `multi_label` keeps its
default `False`. -/
def classify_single_tag (m : Model) (tag : String) (categories : List String)
    (return_scores : Bool) : Except EngineError ClassifyOutput :=
  classify_tags m [tag] categories false return_scores

/-- Contract of the real pipeline: when the call returns instead of raising,
its labels are a permutation of the candidate labels (each candidate scored
once, reranked), there is one score per label, and the ranked output is
non-empty (the pipeline raises on an empty candidate list). -/
def ModelWF (m : Model) : Prop :=
  ∀ text cats ml out, m text cats ml = .ok out →
    out.labels.Perm cats ∧ out.scores.length = out.labels.length ∧
      out.labels ≠ []

/-! ## Service layer (server.py) -/

/-- Pydantic `ClassificationRequest` (server.py, lines 40-59). -/
structure ClassificationRequest where
  tags : List String
  categories : List String
  multi_label : Bool
  return_scores : Bool
  deriving DecidableEq

/-- Pydantic `ClassificationResponse` (server.py, lines 62-69). -/
structure ClassificationResponse where
  category : String
  score : ℚ
  all_scores : Option (List (String × ℚ))
  deriving DecidableEq

/-- A raised `HTTPException`: status code and detail body. -/
structure HttpError where
  status_code : ℕ
  detail : String
  deriving DecidableEq

def MODEL_NAME : String := "MoritzLaurer/deberta-v3-base-zeroshot-v2.0"

/-- `HealthResponse` (server.py, lines 72-77). -/
structure HealthResponse where
  status : String
  model : String
  timestamp : String
  version : String
  deriving DecidableEq

/-- `health_check` (server.py, lines 96-108): the global `classifier` is the
`Option Model` argument, `datetime.now().isoformat()` the `now` argument. -/
def health_check (classifier : Option Model) (now : String) : HealthResponse :=
  ⟨if classifier.isSome then "healthy" else "unhealthy", MODEL_NAME, now, "1.0.0"⟩

/-- The `try` block of the `/classify` route (server.py, lines 150-170):
run the engine; on success build the response from the result dict, on any
exception raise 500 with the exception's message embedded in the detail. -/
def classifyAndRespond (m : Model) (req : ClassificationRequest) :
    Except HttpError ClassificationResponse :=
  match classify_tags m req.tags req.categories req.multi_label req.return_scores with
  | .ok o => .ok ⟨o.category, o.score, o.all_scores⟩
  | .error e =>
    .error ⟨500, "Interner Fehler bei der Klassifizierung: " ++ e.msg⟩

/-- The `/classify` route (server.py, lines 111-170): 503 when the global
classifier is `None`, 400 when `tags` is empty, 400 when `categories` has
fewer than two entries, otherwise delegate to the engine. -/
def serverClassify (classifier : Option Model) (req : ClassificationRequest) :
    Except HttpError ClassificationResponse :=
  match classifier with
  | none => .error ⟨503, "Service nicht verfügbar - Modell nicht geladen"⟩
  | some m =>
    if req.tags = [] then
      .error ⟨400, "Mindestens ein Tag muss angegeben werden"⟩
    else if req.categories.length < 2 then
      .error ⟨400, "Mindestens zwei Kategorien müssen angegeben werden"⟩
    else classifyAndRespond m req

/-! ## Concrete models and requests used by witnesses and counterexamples -/

/-- A model whose call always raises. -/
def mFail : Model := fun _ _ _ => .error "model failure"

/-- A model that ranks the candidate labels in their given order with equal
scores, and raises on an empty candidate list (as the pipeline does). -/
def mRank : Model := fun _ cats _ =>
  if cats.isEmpty then .error "at least one label required"
  else .ok ⟨cats, cats.map fun _ => mkRat 1 2⟩

/-- A model returning a fixed two-label ranking. -/
def mTwo : Model := fun _ _ _ => .ok ⟨["animals", "food"], [mkRat 3 5, mkRat 2 5]⟩

/-- A model returning a ranking with a duplicated label. -/
def mDup : Model := fun _ _ _ => .ok ⟨["a", "a"], [mkRat 3 5, mkRat 2 5]⟩

def reqGood : ClassificationRequest := ⟨["dog"], ["animals", "food"], false, false⟩

def reqEmptyTags : ClassificationRequest := ⟨[], ["animals", "food"], false, false⟩

def reqOneCat : ClassificationRequest := ⟨["pizza"], ["food"], false, false⟩

/-- A request whose two category entries are not distinct. -/
def reqDup : ClassificationRequest := ⟨["x"], ["a", "a"], false, false⟩

theorem mRank_wf : ModelWF mRank := by
  intro text cats ml out h
  by_cases hc : cats.isEmpty
  · rw [show mRank text cats ml = .error "at least one label required" from by
      unfold mRank; rw [if_pos hc]] at h
    cases h
  · rw [show mRank text cats ml = .ok ⟨cats, cats.map fun _ => mkRat 1 2⟩ from by
      unfold mRank; rw [if_neg hc]] at h
    injection h with h2
    subst h2
    exact ⟨List.Perm.refl _, by simp, fun hnil => hc (by simp [show cats = [] from hnil])⟩

/-! ## Dictionary lemmas -/

theorem dictUpd_of_not_mem (d : List (String × ℚ)) (k : String) (v : ℚ)
    (h : k ∉ d.map Prod.fst) : dictUpd d k v = d ++ [(k, v)] := by
  induction d with
  | nil => rfl
  | cons p rest ih =>
    obtain ⟨k', v'⟩ := p
    simp only [List.map_cons, List.mem_cons, not_or] at h
    show (if k' = k then (k', v) :: rest else (k', v') :: dictUpd rest k v) = _
    rw [if_neg (Ne.symm h.1), List.cons_append, ih h.2]

theorem foldl_dictUpd_eq_append (l : List (String × ℚ)) :
    ∀ d : List (String × ℚ),
      (∀ k ∈ l.map Prod.fst, k ∉ d.map Prod.fst) →
      (l.map Prod.fst).Nodup →
      l.foldl (fun a p => dictUpd a p.1 p.2) d = d ++ l := by
  induction l with
  | nil => intro d _ _; simp
  | cons p rest ih =>
    intro d hdisj hnd
    simp only [List.map_cons, List.nodup_cons] at hnd
    rw [List.foldl_cons,
      dictUpd_of_not_mem d p.1 p.2 (hdisj p.1 (by simp)),
      ih (d ++ [p]) ?_ hnd.2]
    · simp
    · intro k hk
      simp only [List.map_append, List.mem_append, not_or]
      refine ⟨hdisj k (by simp [hk]), ?_⟩
      simp only [List.map_cons, List.map_nil, List.mem_singleton]
      intro e
      subst e
      exact hnd.1 hk

theorem pyDict_eq_self (l : List (String × ℚ))
    (h : (l.map Prod.fst).Nodup) : pyDict l = l := by
  simpa [pyDict] using foldl_dictUpd_eq_append l [] (by simp) h

/-! ## Claim theorems: the Classification Engine -/

/-- C1: the winning category of `classify_tags` is the first label of the
model's ranked output and the returned score is the first score; when
`return_scores` is true the result additionally holds the label-to-score
dict built from the model's output in its (descending-score) order, and
when it is false that dict is omitted (`none`). -/
theorem classify_tags_result_assembly (m : Model) (tags cats : List String)
    (ml rs : Bool) (out : ModelOutput)
    (h : m (String.intercalate ", " tags) cats ml = .ok out)
    (h1 : out.labels ≠ []) (h2 : out.scores ≠ []) :
    classify_tags m tags cats ml rs =
      .ok ⟨out.labels.headI, out.scores.headI,
        if rs then some (pyDict (out.labels.zip out.scores)) else none⟩ := by
  obtain ⟨labels, scores⟩ := out
  obtain ⟨l0, ls, rfl⟩ := List.exists_cons_of_ne_nil h1
  obtain ⟨s0, ss, rfl⟩ := List.exists_cons_of_ne_nil h2
  simp only [classify_tags]
  rw [h]
  rfl

/-- closed instance of C1's theorem at a concrete model and request -/
theorem classify_tags_result_assembly_witness :
    classify_tags mTwo ["dog", "park"] ["animals", "food"] false true =
      .ok ⟨"animals", mkRat 3 5, some [("animals", mkRat 3 5), ("food", mkRat 2 5)]⟩ := by
  have h := classify_tags_result_assembly mTwo ["dog", "park"]
    ["animals", "food"] false true ⟨["animals", "food"], [mkRat 3 5, mkRat 2 5]⟩
    rfl (by decide) (by decide)
  rw [h]
  decide

/-- C5: the premise the engine presents to the model is exactly the tags
joined with ", " in input order (no deduplication, normalization or
language detection: the engine's result is `assembleResult` of the model
applied to that verbatim join, and any two models agreeing on that one
string agree on the whole result). -/
theorem classify_tags_premise (m m' : Model) (tags cats : List String)
    (ml rs : Bool)
    (h : m (String.intercalate ", " tags) cats ml
       = m' (String.intercalate ", " tags) cats ml) :
    classify_tags m tags cats ml rs
        = assembleResult rs (m (String.intercalate ", " tags) cats ml) ∧
      classify_tags m tags cats ml rs = classify_tags m' tags cats ml rs := by
  have key : ∀ mm : Model, classify_tags mm tags cats ml rs
      = assembleResult rs (mm (String.intercalate ", " tags) cats ml) := by
    intro mm
    simp only [classify_tags]
    cases hx : mm (String.intercalate ", " tags) cats ml with
    | error e => rfl
    | ok out => rfl
  exact ⟨key m, by rw [key m, key m', h]⟩

/-- closed instance of C5's theorem at a concrete model and request -/
theorem classify_tags_premise_witness :
    classify_tags mTwo ["dog"] ["animals", "food"] false false
        = assembleResult false
            (mTwo (String.intercalate ", " ["dog"]) ["animals", "food"] false) ∧
      classify_tags mTwo ["dog"] ["animals", "food"] false false
        = classify_tags mTwo ["dog"] ["animals", "food"] false false :=
  classify_tags_premise mTwo mTwo ["dog"] ["animals", "food"] false false rfl

/-- C9: against a fixed model, two `classify_tags` calls with identical
arguments yield identical results (in particular identical category and
score): the engine keeps no mutable caller state. -/
theorem classify_tags_deterministic (m : Model) (t1 t2 c1 c2 : List String)
    (b1 b2 r1 r2 : Bool)
    (ht : t1 = t2) (hc : c1 = c2) (hb : b1 = b2) (hr : r1 = r2) :
    classify_tags m t1 c1 b1 r1 = classify_tags m t2 c2 b2 r2 := by
  subst ht; subst hc; subst hb; subst hr; rfl

/-- closed instance of C9's theorem at a concrete model and request -/
theorem classify_tags_deterministic_witness :
    classify_tags mTwo ["dog"] ["animals", "food"] false true
      = classify_tags mTwo ["dog"] ["animals", "food"] false true :=
  classify_tags_deterministic mTwo ["dog"] ["dog"] ["animals", "food"]
    ["animals", "food"] false false true true rfl rfl rfl rfl

/-- C10: `classify_single_tag` returns exactly the result of
`classify_tags` on the singleton tag list with `multi_label = false`
(the Python default it never overrides), for every model, tag, category
list and `return_scores` flag. -/
theorem classify_single_tag_refines (m : Model) (tag : String)
    (cats : List String) (rs : Bool) :
    classify_single_tag m tag cats rs = classify_tags m [tag] cats false rs := rfl

theorem mFail_wf : ModelWF mFail := by
  intro text cats ml out h
  exact Except.noConfusion h

/-- The concrete engine result used by C2's witness. -/
def resW : ClassifyOutput :=
  ⟨"animals", mkRat 1 2, some [("animals", mkRat 1 2), ("food", mkRat 1 2)]⟩

/-- C2: on a valid request (distinct categories) and a model honouring the
pipeline contract, a successful `classify_tags` returns a category drawn
from `cats`; when `all_scores` is present its keys are exactly the
candidate categories (a permutation, so each exactly once) and its first
entry is the winning category paired with the returned score. -/
theorem classify_tags_invariants (m : Model) (tags cats : List String)
    (ml rs : Bool) (res : ClassifyOutput)
    (hwf : ModelWF m) (hnd : cats.Nodup)
    (h : classify_tags m tags cats ml rs = .ok res) :
    res.category ∈ cats ∧
      ∀ l, res.all_scores = some l →
        (l.map Prod.fst).Perm cats ∧
          ∃ rest, l = (res.category, res.score) :: rest := by
  revert h
  cases hx : m (String.intercalate ", " tags) cats ml with
  | error e =>
    simp only [classify_tags]
    rw [hx]
    intro h
    cases h
  | ok out =>
    obtain ⟨hperm, hlen, hne⟩ := hwf _ _ _ _ hx
    obtain ⟨labels, scores⟩ := out
    obtain ⟨l0, ls, rfl⟩ := List.exists_cons_of_ne_nil hne
    cases scores with
    | nil => simp at hlen
    | cons s0 ss =>
      simp only [classify_tags]
      rw [hx]
      intro h
      injection h with h2
      subst h2
      have hmem : l0 ∈ cats := hperm.subset (List.mem_cons_self l0 ls)
      refine ⟨hmem, ?_⟩
      intro l hl
      cases rs with
      | false => cases hl
      | true =>
        injection hl with hl2
        subst hl2
        have hkeys : ((l0 :: ls).zip (s0 :: ss)).map Prod.fst = l0 :: ls :=
          List.map_fst_zip _ _ (le_of_eq hlen.symm)
        have hkn : (((l0 :: ls).zip (s0 :: ss)).map Prod.fst).Nodup := by
          rw [hkeys]
          exact (hperm.nodup_iff).mpr hnd
        rw [pyDict_eq_self _ hkn]
        refine ⟨?_, ls.zip ss, rfl⟩
        rw [hkeys]
        exact hperm

/-- closed instance of C2's theorem at a concrete model and request -/
theorem classify_tags_invariants_witness :
    resW.category ∈ ["animals", "food"] ∧
      ∀ l, resW.all_scores = some l →
        (l.map Prod.fst).Perm ["animals", "food"] ∧
          ∃ rest, l = (resW.category, resW.score) :: rest :=
  classify_tags_invariants mRank ["dog"] ["animals", "food"] false true resW
    mRank_wf (by decide) (by decide)

/-- C6: the engine re-validates no cardinality: for a model honouring the
pipeline contract and any input whatever (empty tags, empty or singleton
categories included), `classify_tags` either succeeds or fails with the
`inferenceError` raised by the model call; it never raises anything else
(in particular no `indexError`). -/
theorem classify_tags_no_crash (m : Model) (tags cats : List String)
    (ml rs : Bool) (hwf : ModelWF m) :
    (∃ res, classify_tags m tags cats ml rs = .ok res) ∨
      (∃ e, m (String.intercalate ", " tags) cats ml = .error e ∧
        classify_tags m tags cats ml rs = .error (.inferenceError e)) := by
  cases hx : m (String.intercalate ", " tags) cats ml with
  | error e =>
    right
    refine ⟨e, rfl, ?_⟩
    simp only [classify_tags]
    rw [hx]
  | ok out =>
    left
    obtain ⟨hperm, hlen, hne⟩ := hwf _ _ _ _ hx
    obtain ⟨labels, scores⟩ := out
    obtain ⟨l0, ls, rfl⟩ := List.exists_cons_of_ne_nil hne
    cases scores with
    | nil => simp at hlen
    | cons s0 ss =>
      refine ⟨⟨l0, s0,
        if rs then some (pyDict ((l0 :: ls).zip (s0 :: ss))) else none⟩, ?_⟩
      simp only [classify_tags]
      rw [hx]

/-- closed instance of C6's theorem on degenerate input (tags and
categories both empty) -/
theorem classify_tags_no_crash_witness :
    (∃ res, classify_tags mFail [] [] false false = .ok res) ∨
      (∃ e, mFail (String.intercalate ", " []) [] false = .error e ∧
        classify_tags mFail [] [] false false = .error (.inferenceError e)) :=
  classify_tags_no_crash mFail [] [] false false mFail_wf

/-! ## Claim theorems: the HTTP Service Layer -/

/-- C3: the route validates fail-fast in this order: absent classifier
gives 503 whatever the request; else empty `tags` gives its 400; else
fewer than two `categories` gives its 400; only when all three checks pass
is the engine invoked. On any invalid input the outcome does not depend on
the model, i.e. no inference occurs. -/
theorem serverClassify_validation (m m' : Model) (req : ClassificationRequest) :
    serverClassify none req
        = .error ⟨503, "Service nicht verfügbar - Modell nicht geladen"⟩ ∧
      (req.tags = [] →
        serverClassify (some m) req
          = .error ⟨400, "Mindestens ein Tag muss angegeben werden"⟩) ∧
      (req.tags ≠ [] → req.categories.length < 2 →
        serverClassify (some m) req
          = .error ⟨400, "Mindestens zwei Kategorien müssen angegeben werden"⟩) ∧
      (req.tags ≠ [] → ¬req.categories.length < 2 →
        serverClassify (some m) req = classifyAndRespond m req) ∧
      ((req.tags = [] ∨ req.categories.length < 2) →
        serverClassify (some m) req = serverClassify (some m') req) := by
  refine ⟨rfl, ?_, ?_, ?_, ?_⟩
  · intro h
    simp [serverClassify, h]
  · intro h1 h2
    simp [serverClassify, h1, h2]
  · intro h1 h2
    simp [serverClassify, h1, h2]
  · intro h
    by_cases ht : req.tags = []
    · simp [serverClassify, ht]
    · have hc : req.categories.length < 2 := h.resolve_left ht
      simp [serverClassify, ht, hc]

/-- closed instances of C3's theorem: each validation outcome at a
concrete request -/
theorem serverClassify_validation_witness :
    serverClassify (some mRank) reqEmptyTags
        = .error ⟨400, "Mindestens ein Tag muss angegeben werden"⟩ ∧
      serverClassify (some mRank) reqOneCat
        = .error ⟨400, "Mindestens zwei Kategorien müssen angegeben werden"⟩ ∧
      serverClassify (some mRank) reqGood = classifyAndRespond mRank reqGood :=
  ⟨(serverClassify_validation mRank mRank reqEmptyTags).2.1 rfl,
    (serverClassify_validation mRank mRank reqOneCat).2.2.1 (by decide) (by decide),
    (serverClassify_validation mRank mRank reqGood).2.2.2.1 (by decide) (by decide)⟩

/-- C4: when a valid request's engine call raises, the route re-signals
the failure as a 500 whose detail embeds the original message; it is not
swallowed (the caller sees an error) and the engine is called once, not
retried. -/
theorem serverClassify_wraps_inference_error (m : Model)
    (req : ClassificationRequest) (s : String)
    (h1 : req.tags ≠ []) (h2 : ¬req.categories.length < 2)
    (h3 : classify_tags m req.tags req.categories req.multi_label req.return_scores
        = .error (.inferenceError s)) :
    serverClassify (some m) req
      = .error ⟨500, "Interner Fehler bei der Klassifizierung: " ++ s⟩ := by
  have h4 : serverClassify (some m) req = classifyAndRespond m req := by
    simp [serverClassify, h1, h2]
  rw [h4]
  unfold classifyAndRespond
  rw [h3]
  rfl

/-- closed instance of C4's theorem at a concrete raising model -/
theorem serverClassify_wraps_inference_error_witness :
    serverClassify (some mFail) reqGood
      = .error ⟨500, "Interner Fehler bei der Klassifizierung: " ++ "model failure"⟩ :=
  serverClassify_wraps_inference_error mFail reqGood "model failure"
    (by decide) (by decide) (by decide)

/-- C8: the health response reports `healthy` exactly when the classifier
handle is present and `unhealthy` exactly when it is absent, and always
carries the model identifier, the supplied timestamp and the version; the
operation is a total function (it never raises, even when unhealthy) with
no side effects. -/
theorem health_check_spec (c : Option Model) (now : String) :
    ((health_check c now).status = "healthy" ↔ c.isSome) ∧
      ((health_check c now).status = "unhealthy" ↔ c = none) ∧
      (health_check c now).model = MODEL_NAME ∧
      (health_check c now).timestamp = now ∧
      (health_check c now).version = "1.0.0" := by
  cases c with
  | none =>
    refine ⟨?_, ?_, rfl, rfl, rfl⟩ <;> simp [health_check]
  | some m =>
    refine ⟨?_, ?_, rfl, rfl, rfl⟩ <;> simp [health_check]

/-- C7 counterexample: the request `reqDup` has two equal category entries
("a", "a"), so its categories are not 2 distinct elements; yet the route
does not reject it: with one model the caller receives the engine's
classification and with another the engine's 500 failure, so the invalid
instance reached the Engine and inference ran. -/
theorem serverClassify_dup_categories_counterexample :
    serverClassify (some mDup) reqDup = .ok ⟨"a", mkRat 3 5, none⟩ ∧
      serverClassify (some mFail) reqDup
        = .error ⟨500, "Interner Fehler bei der Klassifizierung: model failure"⟩ := by
  constructor
  · decide
  · decide

/-- C7 amended: the route's 400 rejection happens exactly when `tags` is
empty or `categories` has fewer than 2 entries; distinctness of the
category entries is never checked, so a request with 2 or more duplicated
categories passes validation and is handed to the Engine. -/
theorem serverClassify_reject_iff (m : Model) (req : ClassificationRequest) :
    (∃ d, serverClassify (some m) req = .error ⟨400, d⟩) ↔
      req.tags = [] ∨ req.categories.length < 2 := by
  constructor
  · rintro ⟨d, hd⟩
    by_contra hcon
    push_neg at hcon
    obtain ⟨ht, hc⟩ := hcon
    have h4 : serverClassify (some m) req = classifyAndRespond m req := by
      simp [serverClassify, ht, hc]
    rw [h4] at hd
    unfold classifyAndRespond at hd
    cases hcl : classify_tags m req.tags req.categories req.multi_label
        req.return_scores with
    | ok o => rw [hcl] at hd; cases hd
    | error e =>
      rw [hcl] at hd
      injection hd with hd2
      have h5 : (500 : ℕ) = 400 := congrArg HttpError.status_code hd2
      exact absurd h5 (by decide)
  · intro h
    by_cases ht : req.tags = []
    · exact ⟨"Mindestens ein Tag muss angegeben werden",
        by simp [serverClassify, ht]⟩
    · have hc : req.categories.length < 2 := h.resolve_left ht
      exact ⟨"Mindestens zwei Kategorien müssen angegeben werden",
        by simp [serverClassify, ht, hc]⟩

/-- closed instance of C7's amended theorem at a concrete request -/
theorem serverClassify_reject_iff_witness :
    (∃ d, serverClassify (some mDup) reqOneCat = .error ⟨400, d⟩) ↔
      reqOneCat.tags = [] ∨ reqOneCat.categories.length < 2 :=
  serverClassify_reject_iff mDup reqOneCat
